import Mathlib

/-
Verification development for the JobChain repository: a shallow embedding of
the graph-composition DSL (src/jobchain/dsl.py, dev_resources/dsl_play.py)
and of the task pipeline (job.py, job_chain.py), with theorems settling the
specification claims about them.
-/

namespace JobChainSpec

/-- Model of a JobABC / MockJobABC instance.  `jid` is the identity of the
Python object, `name` its `name` attribute (`none` models Python `None`),
and `wraps` is `some rid` when the instance is a `WrappingJob` created
around the raw callable object with identity `rid`. -/
structure JobInst where
  jid : Nat
  name : Option String
  wraps : Option Nat
deriving DecidableEq, Repr

/-- Sum type of the three kinds of objects the DSL operators dispatch over:
a `JobABC` leaf, a `Parallel(*components)` composite, or a
`Serial(*components)` composite (dsl.py / dsl_play.py). -/
inductive DslObj where
  | jobv (j : JobInst)
  | parv (cs : List DslObj)
  | serv (cs : List DslObj)

/-- An arbitrary Python value flowing into the DSL: either an object that is
already a `JobABC`/`Parallel`/`Serial`, or a raw (callable) object with
identity `rid` that the DSL lifts via `WrappingJob`. -/
inductive PyVal where
  | dsl (o : DslObj)
  | raw (rid : Nat)

/-- The job produced by `WrappingJob(other)` in the operator methods of
dsl.py: a fresh `WrappingJob` around the raw object, with `name = None`. -/
def wrappingJobOf (rid : Nat) : JobInst := ⟨rid, none, some rid⟩

/-- Models the preamble `if not isinstance(other, (JobABC, Parallel, Serial)):
other = WrappingJob(other)` shared by the composite operator methods. -/
def coerceOther : PyVal → DslObj
  | .dsl o => o
  | .raw r => .jobv (wrappingJobOf r)

/-- MockJobABC.__or__ (dsl_play.py lines 37-48): if the right side is already
a `Parallel`, splice `self` in front of its components; otherwise build a
two-element `Parallel`, wrapping a raw right operand first. -/
def jobOr (j : JobInst) (y : PyVal) : DslObj :=
  match coerceOther y with
  | .parv cs => .parv (.jobv j :: cs)
  | o => .parv [.jobv j, o]

/-- Parallel.__or__ (dsl.py lines 14-19): flatten `self.components` and
append the (coerced) right operand as one further component. -/
def parOr (cs : List DslObj) (y : PyVal) : DslObj :=
  .parv (cs ++ [coerceOther y])

/-- Serial.__or__ (dsl.py lines 36-41): a two-element `Parallel` holding the
whole serial composite and the (coerced) right operand. -/
def serOr (cs : List DslObj) (y : PyVal) : DslObj :=
  .parv [.serv cs, coerceOther y]

/-- Dispatch of the `|` operator `x | y` on the dynamic type of `x`. -/
def dslOr : DslObj → PyVal → DslObj
  | .jobv j, y => jobOr j y
  | .parv cs, y => parOr cs y
  | .serv cs, y => serOr cs y

/-- MockJobABC.__rshift__ (dsl_play.py lines 50-61): splice into a `Serial`
right operand, otherwise build a two-element `Serial`. -/
def jobRsh (j : JobInst) (y : PyVal) : DslObj :=
  match coerceOther y with
  | .serv cs => .serv (.jobv j :: cs)
  | o => .serv [.jobv j, o]

/-- Parallel.__rshift__ (dsl.py lines 21-26). -/
def parRsh (cs : List DslObj) (y : PyVal) : DslObj :=
  .serv [.parv cs, coerceOther y]

/-- Serial.__rshift__ (dsl.py lines 43-48): flatten `self.components` and
append the (coerced) right operand. -/
def serRsh (cs : List DslObj) (y : PyVal) : DslObj :=
  .serv (cs ++ [coerceOther y])

/-- Dispatch of the `>>` operator `x >> y` on the dynamic type of `x`. -/
def dslRsh : DslObj → PyVal → DslObj
  | .jobv j, y => jobRsh j y
  | .parv cs, y => parRsh cs y
  | .serv cs, y => serRsh cs y

/-- Case 3 of `wrap` in dsl.py (lines 111-118) restricted to a non-None
positional argument: a `JobABC`, `Parallel` or `Serial` is returned
unchanged, anything else is wrapped in a fresh unnamed `WrappingJob`. -/
def wrapVal : PyVal → DslObj
  | .dsl o => o
  | .raw r => .jobv ⟨r, none, some r⟩

/-- Wrapping of one named item inside the keyword/dict cases of `wrap`
(dsl.py lines 80-87 and 96-104): a `JobABC` gets its `name` attribute set
and is returned itself; a `Parallel`/`Serial` passes through unchanged; any
other (callable) value becomes `WrappingJob(value, name)`. -/
def wrapOne (name : String) (v : PyVal) : DslObj :=
  match v with
  | .dsl (.jobv j) => .jobv { j with name := some name }
  | .dsl o => o
  | .raw r => .jobv ⟨r, some name, some r⟩

/-- Result of `wrap`: either a single wrapped object or a name-to-object
mapping (a Python dict, modelled as an insertion-ordered list). -/
inductive WrapOut where
  | single (o : DslObj)
  | mapping (m : List (String × DslObj))

/-- Shared body of cases 1 and 2 of `wrap`: wrap every named item; if the
resulting dict has exactly one entry return just that value, otherwise
return the dict.  Keys are assumed distinct, as Python keyword arguments
are. -/
def wrapItems (items : List (String × PyVal)) : WrapOut :=
  match items.map (fun p => (p.1, wrapOne p.1 p.2)) with
  | [single] => .single single.2
  | result => .mapping result

/-- The positional argument of `wrap`: absent (`None`), a plain value, or a
dict of named values. -/
inductive WrapArg where
  | noneArg
  | val (v : PyVal)
  | dict (m : List (String × PyVal))

/-- Full model of `wrap(obj=None, **kwargs)` (dsl.py lines 54-118):
keyword-only calls and dict arguments go through the named-wrapping cases,
`wrap()` with no argument raises `ValueError`, and a plain positional value
goes through case 3. -/
def wrap (obj : WrapArg) (kwargs : List (String × PyVal)) : Except String WrapOut :=
  match obj, kwargs with
  | .noneArg, _ :: _ => .ok (wrapItems kwargs)
  | .dict m, _ => .ok (wrapItems m)
  | .noneArg, [] => .error "wrap() requires at least one argument"
  | .val v, _ => .ok (.single (wrapVal v))

/-- Argument shape of `parallel(*objects)` / `serial(*objects)` (dsl.py):
either genuine varargs, or the backward-compatibility form where the single
positional argument is a list. -/
inductive ParArgs where
  | varargs (vs : List PyVal)
  | singleList (l : List PyVal)

/-- The normalization at the top of `parallel` and `serial`: a single list
argument replaces the varargs tuple. -/
def parArgsObjects : ParArgs → List PyVal
  | .varargs vs => vs
  | .singleList l => l

/-- Model of `parallel(*objects)` (dsl.py lines 123-145): raise on zero
components, `wrap` a singleton, else left-fold `acc | wrap(obj)` starting
from `wrap(objects[0])`. -/
def dslParallel (args : ParArgs) : Except String DslObj :=
  match parArgsObjects args with
  | [] => .error "Cannot create a parallel composition from empty arguments"
  | [o] => .ok (wrapVal o)
  | o :: rest => .ok (rest.foldl (fun acc x => dslOr acc (.dsl (wrapVal x))) (wrapVal o))

/-- Model of `serial(*objects)` (dsl.py lines 150-172): raise on zero
components, `wrap` a singleton, else left-fold `acc >> wrap(obj)`. -/
def dslSerial (args : ParArgs) : Except String DslObj :=
  match parArgsObjects args with
  | [] => .error "Cannot create a serial composition from empty arguments"
  | [o] => .ok (wrapVal o)
  | o :: rest => .ok (rest.foldl (fun acc x => dslRsh acc (.dsl (wrapVal x))) (wrapVal o))

/-- Whether a DSL object is a `Parallel` composite. -/
def DslObj.isPar : DslObj → Bool
  | .parv _ => true
  | _ => false

mutual

/-- The flatness property claimed by the spec: no `Parallel` node appears
directly as a child of a `Parallel` node anywhere in the expression tree. -/
def noParInPar : DslObj → Bool
  | .jobv _ => true
  | .parv cs => noParChildren cs
  | .serv cs => noParList cs

/-- Children of a `Parallel`: none may itself be a `Parallel`, and all must
be recursively flat. -/
def noParChildren : List DslObj → Bool
  | [] => true
  | c :: rest => !c.isPar && noParInPar c && noParChildren rest

/-- Children of a `Serial`: all must be recursively flat. -/
def noParList : List DslObj → Bool
  | [] => true
  | c :: rest => noParInPar c && noParList rest

end

/-- A plain job leaf used in concrete counterexamples. -/
def cJob (n : Nat) : DslObj := .jobv ⟨n, none, none⟩

/-- Primitive Python values appearing in task payloads: strings, integers
and `None`. -/
inductive PyPrim where
  | s (v : String)
  | i (v : Int)
  | noneV
deriving DecidableEq, Repr

/-- A Python dict used as a task payload, modelled as an insertion-ordered
association list with distinct keys. -/
abbrev TaskDict := List (String × PyPrim)

/-- Python `d[k]`-style lookup via `d.get(k)`: the value at the first
occurrence of the key, if any. -/
def dictGet : TaskDict → String → Option PyPrim
  | [], _ => none
  | p :: rest, k => if p.1 == k then some p.2 else dictGet rest k

/-- Python `d[k] = v`: replace the value at an existing key in place, or
append a new binding at the end (dict insertion order). -/
def dictSet (d : TaskDict) (k : String) (v : PyPrim) : TaskDict :=
  if d.any (fun p => p.1 == k) then
    d.map (fun p => if p.1 == k then (k, v) else p)
  else d ++ [(k, v)]

/-- The `data` argument of `Task.__init__` (job.py lines 59-66): a string, a
dict, or any other object whose canonical `str()` form is `r`. -/
inductive TaskData where
  | str (s : String)
  | dict (m : TaskDict)
  | other (r : String)
deriving DecidableEq, Repr

/-- The payload normalization in `Task.__init__` (job.py lines 61-66): a
string becomes a dict under key `task`, a dict is copied through unchanged,
and any other value is stringified under key `task`. -/
def taskInitData : TaskData → TaskDict
  | .str s => [("task", .s s)]
  | .dict m => m
  | .other r => [("task", .s r)]

/-- Full `Task.__init__` (job.py lines 59-71): payload normalization plus
the optional `job_name` binding. -/
def mkTask (d : TaskData) (jobName : Option String) : TaskDict :=
  match jobName with
  | some n => dictSet (taskInitData d) "job_name" (.s n)
  | none => taskInitData d

/-- The `task` argument of `JobChain.submit_task`: `None`, a string, a
dict, a sequence (list/tuple/set) with `str()` form `r`, or any other
object with `str()` form `r`. -/
inductive SubmitTaskArg where
  | noneT
  | str (s : String)
  | dict (m : TaskDict)
  | seq (r : String)
  | other (r : String)
deriving DecidableEq, Repr

/-- What one call to `submit_task` does, observably: skip a `None` task,
enqueue a task dict, or catch a submit-time exception in the blanket
`except` block and only log it (job_chain.py lines 226-227), returning
normally in every case. -/
inductive SubmitOutcome where
  | skippedNone
  | enqueued (d : TaskDict)
  | errorLogged (msg : String)
deriving DecidableEq, Repr

/-- Error message of job_chain.py lines 201-203 and 215-217 (quotes around
the job name elided). -/
def msgJobNotFound (n : String) : String := "Job " ++ n ++ " not found"

/-- Error message of job_chain.py lines 209-213. -/
def msgNeedJobName : String :=
  "When multiple jobs are present, you must either provide the job_name parameter or include a non-empty string job_name in the task dictionary"

/-- Error message of job_chain.py line 222. -/
def msgNoJobs : String := "No jobs available in JobChain"

/-- The task-dict normalization at the top of `submit_task` (job_chain.py
lines 187-196): strings and non-dict values are lifted under key `task`,
dicts are copied through. -/
def submitTaskDict : SubmitTaskArg → TaskDict
  | .noneT => []
  | .str s => [("task", .s s)]
  | .dict m => m
  | .seq r => [("task", .s r)]
  | .other r => [("task", .s r)]

/-- The job-name validation of `submit_task` after the `job_name` parameter
has been folded into the dict (job_chain.py lines 206-225): with more than
one job the dict must carry a non-empty string `job_name` naming a known
job; with exactly one job its name is written into the dict; with no jobs a
`ValueError` is raised. -/
def submitChecks (jobMap : List String) (td : TaskDict) : SubmitOutcome :=
  if 1 < jobMap.length then
    match dictGet td "job_name" with
    | some (.s n) =>
      if n = "" then .errorLogged msgNeedJobName
      else if jobMap.contains n then .enqueued td
      else .errorLogged (msgJobNotFound n)
    | _ => .errorLogged msgNeedJobName
  else if jobMap.length = 1 then
    .enqueued (dictSet td "job_name" (.s (jobMap.headD "")))
  else .errorLogged msgNoJobs

/-- Model of `JobChain.submit_task(task, job_name)` (job_chain.py lines
169-227).  `jobMap` lists the names of `self.job_map` in insertion order.
A `None` task is skipped before anything else; an explicit `job_name`
parameter is validated against the map and overwrites any `job_name` key in
the dict; every raised `ValueError` is caught by the surrounding `except`
block, which logs it and returns normally. -/
def submitTask (jobMap : List String) (task : SubmitTaskArg) (jobName : Option String) :
    SubmitOutcome :=
  match task with
  | .noneT => .skippedNone
  | _ =>
    let td := submitTaskDict task
    match jobName with
    | some n =>
      if jobMap.contains n then submitChecks jobMap (dictSet td "job_name" (.s n))
      else .errorLogged (msgJobNotFound n)
    | none => submitChecks jobMap td

/-- One `submit_task` call as a transition on the task queue: only an
`enqueued` outcome appends the task object (`Task(task_dict)`, whose
payload equals the dict) to `self._task_queue`. -/
def submitRun (jobMap : List String) (queue : List TaskDict) (task : SubmitTaskArg)
    (jobName : Option String) : List TaskDict × SubmitOutcome :=
  match submitTask jobMap task jobName with
  | .enqueued d => (queue ++ [d], .enqueued d)
  | o => (queue, o)

/-- The behavior of one entry of `job_map` for the worker: `job._execute`
on a task either returns a result dict or raises (`none`).  A `JobChain`
job may itself be the head of a job chain; this function is the observable
behavior of running the whole chain. -/
abbrev JobRun := TaskDict → Option TaskDict

/-- The worker-side `job_map`: name to job behavior, in insertion order. -/
abbrev JobMap := List (String × JobRun)

/-- Lookup `job_map[job_name]`; `none` models a `KeyError`. -/
def jobMapGet (m : JobMap) (k : String) : Option JobRun :=
  (m.find? (fun p => p.1 == k)).map (fun p => p.2)

/-- Model of `process_task` inside `_async_worker` (job_chain.py lines
322-342): with a single job the task is run on it directly; otherwise the
task must carry a truthy `job_name` naming a job in the map.  A `none`
result covers every path on which the coroutine raises (missing or falsy
`job_name`, `KeyError`, or `job._execute` raising): the exception is
logged, re-raised into the asyncio task, and no result is put on the
result queue. -/
def processTask (jobMap : JobMap) (t : TaskDict) : Option TaskDict :=
  match jobMap with
  | [(_, run)] => run t
  | _ =>
    match dictGet t "job_name" with
    | some (.s n) =>
      if n = "" then none
      else match jobMapGet jobMap n with
        | some run => run t
        | none => none
    | _ => none

/-- Model of `queue_monitor` inside `_async_worker` (job_chain.py lines
344-395) run on the input queue contents `ts` followed by the `None` end
sentinel.  Each task that completes successfully puts exactly one result on
the result queue; a failing task puts none; the `None` completion sentinel
is put after the monitor loop has drained every in-flight task, hence last.
The real scheduler may emit results of distinct tasks in any order; this
model fixes submission order, which the claims (about result counts and
sentinel delivery) do not depend on. -/
def asyncWorker (jobMap : JobMap) (ts : List TaskDict) : List (Option TaskDict) :=
  (ts.filterMap (processTask jobMap)).map some ++ [none]

/-- Model of the `result_processing_function` passed to the `JobChain`
constructor: all the pipeline inspects about it is whether it and its
closure cells pickle successfully. -/
structure ResultFn where
  picklable : Bool
deriving DecidableEq, Repr

/-- Error message of `_check_picklable` (job_chain.py lines 130-143). -/
def msgNotPicklable : String :=
  "Result processing function must be picklable in parallel mode"

/-- Model of `JobChain._check_picklable`: raises `TypeError` exactly when
pickling the function or one of its closure cells fails. -/
def checkPicklable (f : ResultFn) : Except String Unit :=
  if f.picklable then .ok () else .error msgNotPicklable

/-- The serializability gate in `JobChain.__init__` (job_chain.py lines
43-44): in parallel mode (`serial_processing=False`) with a result
processing function present, `_check_picklable` runs synchronously before
any process is started and before any task is accepted; otherwise nothing
is checked. -/
def jobChainInit (rf : Option ResultFn) (serialProcessing : Bool) : Except String Unit :=
  match rf, serialProcessing with
  | some f, false => checkPicklable f
  | _, _ => .ok ()

/-- Model of `_process_serial_results` (job_chain.py lines 287-311): drain
the result queue in the caller, handing each result to the result
processing function, stopping at the `None` completion sentinel (or when
the queue is exhausted and the worker has exited).  Returns the list of
results the function receives, in order. -/
def processSerialResults : List (Option TaskDict) → List TaskDict
  | [] => []
  | none :: _ => []
  | some r :: rest => r :: processSerialResults rest

/-- Appending a fresh binding makes its key readable when the key was not
present before. -/
theorem dictGet_append_fresh (d : TaskDict) (k : String) (v : PyPrim)
    (h : d.any (fun p => p.1 == k) = false) :
    dictGet (d ++ [(k, v)]) k = some v := by
  induction d with
  | nil => simp [dictGet]
  | cons p rest ih =>
    simp only [List.any_cons, Bool.or_eq_false_iff] at h
    rw [List.cons_append, dictGet, if_neg (by simp [h.1])]
    exact ih h.2

/-- Replacing the value at a present key makes the new value readable. -/
theorem dictGet_map_replace (d : TaskDict) (k : String) (v : PyPrim)
    (h : d.any (fun p => p.1 == k) = true) :
    dictGet (d.map (fun p => if p.1 == k then (k, v) else p)) k = some v := by
  induction d with
  | nil => simp at h
  | cons p rest ih =>
    by_cases hp : (p.1 == k) = true
    · rw [List.map_cons, if_pos hp, dictGet, if_pos (by simp)]
    · simp only [List.any_cons, hp, Bool.false_or] at h
      rw [List.map_cons, if_neg hp, dictGet, if_neg (by simp [hp])]
      exact ih h

/-- Setting a key always makes it readable back: Python
`d[k] = v; d.get(k) == v`. -/
theorem dictGet_dictSet_self (d : TaskDict) (k : String) (v : PyPrim) :
    dictGet (dictSet d k v) k = some v := by
  unfold dictSet
  by_cases h : d.any (fun p => p.1 == k) = true
  · rw [if_pos h]
    exact dictGet_map_replace d k v h
  · rw [if_neg h]
    exact dictGet_append_fresh d k v (Bool.eq_false_iff.mpr h)

/-- The number of results a `filterMap` keeps equals the number of inputs
on which the function succeeds. -/
theorem length_filterMap_eq_countP (f : α → Option β) (l : List α) :
    (l.filterMap f).length = l.countP (fun a => (f a).isSome) := by
  induction l with
  | nil => rfl
  | cons a l ih =>
    cases h : f a <;>
      simp [List.filterMap_cons, h, List.countP_cons, ih]

/-- Draining a queue that holds results followed by the completion sentinel
hands over exactly the results, in order. -/
theorem processSerialResults_map_some (rs : List TaskDict) :
    processSerialResults (rs.map some ++ [none]) = rs := by
  induction rs with
  | nil => rfl
  | cons r rest ih => simpa [processSerialResults] using ih

/-- A singleton list containing a given element has it as its head. -/
theorem contains_singleton_headD (jm : List String) (n : String)
    (hlen : jm.length = 1) (hn : jm.contains n = true) : jm.headD "" = n := by
  match jm, hlen with
  | [a], _ =>
    have hmem : n ∈ [a] := by simpa using hn
    simpa using (List.mem_singleton.mp hmem).symm

/-- C1: the parallel operator does NOT always splice a `Parallel` operand:
when the left operand is a `Parallel`, `Parallel.__or__` appends the right
operand as a single component, so `Parallel(1,2) | Parallel(3,4)` yields
`Parallel(1, 2, Parallel(3, 4))` — a `Parallel` node directly as a child of
a `Parallel` node, refuting the claimed flatness invariant. -/
theorem c1_par_or_par_nests_counterexample :
    dslOr (.parv [cJob 1, cJob 2]) (.dsl (.parv [cJob 3, cJob 4]))
      = .parv [cJob 1, cJob 2, .parv [cJob 3, cJob 4]]
  ∧ noParInPar (dslOr (.parv [cJob 1, cJob 2]) (.dsl (.parv [cJob 3, cJob 4]))) = false := by
  exact ⟨rfl, by decide⟩

/-- C1 (amended): splicing happens only on the operand whose class performs
it: a `Job` left operand splices a `Parallel` right operand into one flat
`Parallel`, and a `Parallel` left operand splices its own children and
appends the right operand as a single component (nesting it if it is
itself a composite).  In particular, for plain jobs a, b, c the
compositions `(a | b) | c`, `a | (b | c)` and `parallel(a, b, c)` all
denote the same flat `Parallel(a, b, c)`. -/
theorem c1_flat_parallel_amended (a b c : JobInst) (cs : List DslObj) (d : DslObj) :
    dslOr (dslOr (.jobv a) (.dsl (.jobv b))) (.dsl (.jobv c))
      = .parv [.jobv a, .jobv b, .jobv c]
  ∧ dslOr (.jobv a) (.dsl (dslOr (.jobv b) (.dsl (.jobv c))))
      = .parv [.jobv a, .jobv b, .jobv c]
  ∧ dslParallel (.varargs [.dsl (.jobv a), .dsl (.jobv b), .dsl (.jobv c)])
      = .ok (.parv [.jobv a, .jobv b, .jobv c])
  ∧ dslOr (.jobv a) (.dsl (.parv cs)) = .parv (.jobv a :: cs)
  ∧ dslOr (.parv cs) (.dsl d) = .parv (cs ++ [d]) :=
  ⟨rfl, rfl, rfl, rfl, rfl⟩

/-- C7: calling `parallel` or `serial` with zero components — either an
empty argument list or a single empty list — raises the empty-composition
`ValueError` instead of returning a composite. -/
theorem c7_empty_composition_raises :
    dslParallel (.varargs []) = .error "Cannot create a parallel composition from empty arguments"
  ∧ dslParallel (.singleList []) = .error "Cannot create a parallel composition from empty arguments"
  ∧ dslSerial (.varargs []) = .error "Cannot create a serial composition from empty arguments"
  ∧ dslSerial (.singleList []) = .error "Cannot create a serial composition from empty arguments" :=
  ⟨rfl, rfl, rfl, rfl⟩

/-- C8: for a value that is already a Job, `wrap` returns the very same
object, so `wrap(wrap(x))` equals `wrap(x)`: wrapping is idempotent. -/
theorem c8_wrap_idempotent_on_jobs (j : JobInst) :
    wrap (.val (.dsl (.jobv j))) [] = .ok (.single (.jobv j))
  ∧ (match wrap (.val (.dsl (.jobv j))) [] with
     | .ok (.single o) => wrap (.val (.dsl o)) []
     | r => r) = wrap (.val (.dsl (.jobv j))) [] :=
  ⟨rfl, rfl⟩

/-- C10: `wrap` called with no positional argument and exactly one keyword
argument returns the single wrapped object itself — for a Job value the
same instance with its name set to the keyword, for a non-Job callable a
`WrappingJob` carrying that name — whereas a call with two or more keyword
arguments returns a name-to-object mapping rather than a single object. -/
theorem c10_wrap_kwargs_single_vs_multi (n : String) (j : JobInst) (r : Nat)
    (kv1 kv2 : String × PyVal) :
    wrap .noneArg [(n, .dsl (.jobv j))] = .ok (.single (.jobv { j with name := some n }))
  ∧ wrap .noneArg [(n, .raw r)] = .ok (.single (.jobv ⟨r, some n, some r⟩))
  ∧ wrap .noneArg [kv1, kv2]
      = .ok (.mapping [(kv1.1, wrapOne kv1.1 kv1.2), (kv2.1, wrapOne kv2.1 kv2.2)]) :=
  ⟨rfl, rfl, rfl⟩

/-- C2: contrary to the spec — and to the Raises clause of the method
docstring (job_chain.py lines 178-180) — submit-time errors do NOT reach
the caller of `submit_task`: the blanket `except` block catches them, logs
them and returns normally.  With a single job A, submitting with the
unknown job name B completes normally with the error only logged and
nothing enqueued; likewise with two jobs and no job name supplied. -/
theorem c2_submit_errors_swallowed :
    submitRun ["A"] [] (.dict [("x", .i 1)]) (some "B")
      = ([], .errorLogged (msgJobNotFound "B"))
  ∧ submitRun ["A", "B"] [] (.dict [("x", .i 1)]) none
      = ([], .errorLogged msgNeedJobName) := by
  exact ⟨by decide, by decide⟩

/-- C3: a scalar payload is NOT lifted to the mapping with key `value`: both
`Task.__init__` and `submit_task` lift it under the key `task`.  Submitting
the string hello enqueues a dict with key `task` and no key `value`. -/
theorem c3_scalar_lift_counterexample :
    taskInitData (.str "hello") = [("task", .s "hello")]
  ∧ dictGet (taskInitData (.str "hello")) "value" = none
  ∧ submitTask ["A"] (.str "hello") none
      = .enqueued [("task", .s "hello"), ("job_name", .s "A")]
  ∧ dictGet [("task", .s "hello"), ("job_name", .s "A")] "value" = none := by
  exact ⟨rfl, by decide, by decide, by decide⟩

/-- C3 (amended): a scalar (non-mapping) payload v is lifted to the mapping
with the single key `task` — holding v itself when v is a string and the
canonical string form of v otherwise — while mapping payloads pass through
(as a copy) unchanged; this holds both in `Task.__init__` and in
`submit_task`. -/
theorem c3_scalar_lift_amended (s r : String) (m : TaskDict) :
    taskInitData (.str s) = [("task", .s s)]
  ∧ taskInitData (.other r) = [("task", .s r)]
  ∧ taskInitData (.dict m) = m
  ∧ submitTaskDict (.str s) = [("task", .s s)]
  ∧ submitTaskDict (.other r) = [("task", .s r)]
  ∧ submitTaskDict (.dict m) = m :=
  ⟨rfl, rfl, rfl, rfl, rfl, rfl⟩

/-- C6: submitting a `None` task is rejected up front: the call returns
normally (no exception reaches the caller), nothing is enqueued on the
task queue, and the queue is exactly as before the call, whatever the job
map, queue contents and `job_name` argument. -/
theorem c6_null_task_rejected (jobMap : List String) (queue : List TaskDict)
    (jobName : Option String) :
    submitRun jobMap queue .noneT jobName = (queue, .skippedNone) :=
  rfl

/-- C9: when both the explicit `job_name` parameter and a `job_name` key in
the task dict are supplied and the parameter names a registered job, the
enqueued task carries the parameter as its `job_name`: the parameter takes
precedence over the payload field. -/
theorem c9_job_name_param_precedence (jm : List String) (m : TaskDict) (n : String)
    (d : TaskDict) (hn : jm.contains n = true)
    (h : submitTask jm (.dict m) (some n) = .enqueued d) :
    dictGet d "job_name" = some (.s n) := by
  have hget : dictGet (dictSet m "job_name" (.s n)) "job_name" = some (.s n) :=
    dictGet_dictSet_self m "job_name" (.s n)
  simp only [submitTask, submitTaskDict, hn, if_true, submitChecks] at h
  by_cases hlen : 1 < jm.length
  · rw [if_pos hlen] at h
    simp only [hget] at h
    by_cases hne : n = ""
    · rw [if_pos hne] at h
      exact SubmitOutcome.noConfusion h
    · rw [if_neg hne, if_pos hn] at h
      injection h with h2
      rw [← h2]
      exact hget
  · rw [if_neg hlen] at h
    by_cases h1 : jm.length = 1
    · rw [if_pos h1] at h
      injection h with h2
      rw [← h2, dictGet_dictSet_self, contains_singleton_headD jm n h1 hn]
    · rw [if_neg h1] at h
      exact SubmitOutcome.noConfusion h

/-- Witness for C9 at a concrete input: two jobs A and B, a task dict whose
`job_name` field says B, and the explicit parameter A; the enqueued dict
carries A. -/
theorem c9_job_name_param_precedence_witness :
    (["A", "B"].contains "A" = true)
  ∧ dictGet [("job_name", .s "A"), ("x", .i 1)] "job_name" = some (.s "A") :=
  ⟨by decide,
   c9_job_name_param_precedence ["A", "B"] [("job_name", .s "B"), ("x", .i 1)] "A"
     [("job_name", .s "A"), ("x", .i 1)] (by decide) (by decide)⟩

/-- The two-job chain of the error-isolation scenario: the head A hands off
to B, and B raises on every task whose number is a multiple of 3; the
chain as a whole therefore yields a result exactly on non-multiples. -/
def chainAB : JobMap :=
  [("A", fun t =>
    match dictGet t "n" with
    | some (.i k) => if k % 3 = 0 then none else some [("result", .i k)]
    | _ => none)]

/-- Nine tasks numbered 1 through 9. -/
def nineTasks : List TaskDict :=
  (List.range 9).map (fun k => [("n", .i (k + 1))])

/-- C4: a task whose job raises puts no result on the result queue, while
the pipeline keeps processing: the number of emitted results equals the
number of tasks whose run succeeds, the completion sentinel is still
delivered (exactly one `None`, and it comes last), and in the concrete
error-isolation scenario — nine tasks through a chain that fails on every
third — exactly six results are emitted. -/
theorem c4_error_isolation (jm : JobMap) (ts : List TaskDict) :
    ((asyncWorker jm ts).filter (fun r => r.isSome)).length
      = ts.countP (fun t => (processTask jm t).isSome)
  ∧ (asyncWorker jm ts).getLast? = some none
  ∧ ((asyncWorker jm ts).filter (fun r => !r.isSome)).length = 1
  ∧ ((asyncWorker chainAB nineTasks).filter (fun r => r.isSome)).length = 6 := by
  refine ⟨?_, ?_, ?_, by decide⟩
  · simp [asyncWorker, List.filter_append, List.filter_map, Function.comp_def,
      Option.isSome_some, List.filter_true, length_filterMap_eq_countP]
  · simp [asyncWorker, List.getLast?_concat]
  · simp [asyncWorker, List.filter_append, List.filter_map, Function.comp_def,
      Option.isSome_some]

/-- C5: constructing the pipeline in parallel result-processing mode with a
result-processing function that does not pickle raises the serializability
`TypeError` synchronously in the constructor, before any task exists;
constructing with the same function in serial mode succeeds, and in serial
mode the function still receives every result the worker emits. -/
theorem c5_serialization_gating (f : ResultFn) (h : f.picklable = false) :
    jobChainInit (some f) false = .error msgNotPicklable
  ∧ jobChainInit (some f) true = .ok ()
  ∧ ∀ (jm : JobMap) (ts : List TaskDict),
      processSerialResults (asyncWorker jm ts) = ts.filterMap (processTask jm) := by
  refine ⟨?_, rfl, ?_⟩
  · simp [jobChainInit, checkPicklable, h]
  · intro jm ts
    exact processSerialResults_map_some (ts.filterMap (processTask jm))

/-- Witness for C5 at a concrete input: a function whose closure does not
pickle makes the parallel-mode constructor raise. -/
theorem c5_serialization_gating_witness :
    (({ picklable := false } : ResultFn).picklable = false)
  ∧ jobChainInit (some { picklable := false }) false = .error msgNotPicklable :=
  ⟨rfl, (c5_serialization_gating { picklable := false } rfl).1⟩

end JobChainSpec
